import Mathlib

/-!
Trapezoidal motion profile (muan/control).

A shallow embedding of `muan/control/motion_profile.h` and
`muan/control/trapezoidal_motion_profile.h`.

The C++ scalars (`double`, and the unit types `Time`, `Length` built on it) are
embedded as elements of an arbitrary linearly ordered field `K`, i.e. exact
arithmetic: rounding, infinities and NaN are outside the model.  Every
definition is computable and can be evaluated at `K = ℚ`.

`direction_` is a C++ `int`; it is embedded as an `Int` and cast into `K`
where the C++ code multiplies a `double` by it.

The header includes `trapezoidal_motion_profile.hpp`, which holds the bodies of
the three-argument constructor and of `Calculate` and is not among the sources.
Those two are modelled from the specification (section `SpecModel`); each such
definition says so in its comment and quotes the words it follows.  The square
root the triangular case needs is a parameter `sqrt : K → K`.
-/

namespace muan

/-- Modelled from the spec: `muan::abs` of `muan/utils/math_utils.h`, which is
not part of the sources at hand.  The spec writes the quantity computed with it
as `|Δv|`, the absolute value. -/
def abs {K : Type} [LinearOrderedField K] (x : K) : K := |x|

namespace control

/-- The struct `MotionProfilePosition` of `motion_profile.h`. -/
@[ext]
structure MotionProfilePosition (K : Type) where
  position : K
  velocity : K

/-- The struct `MotionProfileConstraints` of `trapezoidal_motion_profile.h`. -/
@[ext]
structure MotionProfileConstraints (K : Type) where
  max_velocity : K
  max_acceleration : K

/-- The data members of the class `TrapezoidalMotionProfile`. -/
@[ext]
structure TrapezoidalMotionProfile (K : Type) where
  direction_ : Int
  constraints_ : MotionProfileConstraints K
  initial_ : MotionProfilePosition K
  goal_ : MotionProfilePosition K
  end_accel_ : K
  end_full_speed_ : K
  end_deccel_ : K

section Source

variable {K : Type} [LinearOrderedField K]

/-- The method `MotionProfile::finished` of the base class, as a function of the
value its virtual call `total_time()` returns:
`return time > total_time();`. -/
def MotionProfile.finished (total_time : K) (time : K) : Bool :=
  decide (time > total_time)

/-- The override `TrapezoidalMotionProfile::total_time`:
`return end_deccel_;`. -/
def TrapezoidalMotionProfile.total_time (self : TrapezoidalMotionProfile K) : K :=
  self.end_deccel_

/-- The inherited `finished` on a `TrapezoidalMotionProfile`: the base-class body
with the virtual `total_time()` dispatched to the override. -/
def TrapezoidalMotionProfile.finished (self : TrapezoidalMotionProfile K)
    (time : K) : Bool :=
  MotionProfile.finished self.total_time time

/-- The accessor `constraints()`, read side: `return constraints_;`. -/
def TrapezoidalMotionProfile.constraints (self : TrapezoidalMotionProfile K) :
    MotionProfileConstraints K :=
  self.constraints_

/-- The accessor `constraints()`, write side: the accessor returns a mutable
reference to the member `constraints_`, so an assignment through it replaces
that member of the object and touches nothing else. -/
def TrapezoidalMotionProfile.assign_constraints (self : TrapezoidalMotionProfile K)
    (value : MotionProfileConstraints K) : TrapezoidalMotionProfile K :=
  { self with constraints_ := value }

/-- The private method `ShouldFlipAcceleration`.  Its body reads no data member
of the receiver, so the receiver is not a parameter of the embedding. -/
def ShouldFlipAcceleration (initial goal : MotionProfilePosition K)
    (constraints : MotionProfileConstraints K) : Bool :=
  let velocity_change := goal.velocity - initial.velocity
  let distance_change := goal.position - initial.position
  let t := muan.abs velocity_change / constraints.max_acceleration
  let is_acceleration_flipped :=
    decide (t * (velocity_change / 2 + initial.velocity) > distance_change)
  is_acceleration_flipped

/-- The body of the private method `Direct`, as a function of the value of the
data member `direction_` it reads (`result.position *= direction_;
result.velocity *= direction_;`). -/
def Direct (direction_ : Int) (input : MotionProfilePosition K) :
    MotionProfilePosition K :=
  let result := input
  let result := { result with position := result.position * (direction_ : K) }
  let result := { result with velocity := result.velocity * (direction_ : K) }
  result

/-- The private method `Direct` on a receiver. -/
def TrapezoidalMotionProfile.Direct (self : TrapezoidalMotionProfile K)
    (input : MotionProfilePosition K) : MotionProfilePosition K :=
  muan.control.Direct self.direction_ input

/-- The private method `ShouldFlipAcceleration` on a receiver: a `const` member
function whose body names its three arguments and no data member. -/
def TrapezoidalMotionProfile.ShouldFlipAcceleration (_self : TrapezoidalMotionProfile K)
    (initial goal : MotionProfilePosition K)
    (constraints : MotionProfileConstraints K) : Bool :=
  muan.control.ShouldFlipAcceleration initial goal constraints

end Source

section SpecModel

variable {K : Type} [LinearOrderedField K]

/-- Modelled from the spec: the way a construction can fail.  The spec's error
taxonomy has the single entry `InvalidConstraints`. -/
inductive ConstructionError where
  | InvalidConstraints
  deriving DecidableEq

/-- Modelled from the spec: the direction chosen by the three-argument
constructor, whose body (`trapezoidal_motion_profile.hpp`) is not part of the
sources at hand.  "If the ramp-only distance exceeds Δposition, the profile must
be flipped (direction = −1); otherwise direction = +1." -/
def profileDirection (initial goal : MotionProfilePosition K)
    (constraints : MotionProfileConstraints K) : Int :=
  if ShouldFlipAcceleration initial goal constraints then -1 else 1

/-- Modelled from the spec: the time of a linear velocity ramp between two
velocities at `max_acceleration`, a helper of the missing constructor body.  The
spec gives the formula where it describes the flip check: "the time
`t = |Δv| / max_acceleration` needed to ramp linearly from `initial.velocity` to
`goal.velocity`". -/
def rampTime (max_acceleration v_from v_to : K) : K :=
  muan.abs (v_to - v_from) / max_acceleration

/-- Modelled from the spec: the distance covered by a linear velocity ramp, a
helper of the missing constructor body: "the distance such a ramp alone would
cover: `t * (Δv/2 + initial.velocity)`". -/
def rampDistance (max_acceleration v_from v_to : K) : K :=
  rampTime max_acceleration v_from v_to * ((v_to - v_from) / 2 + v_from)

/-- Modelled from the spec: a quantity of the missing constructor body, "the
total displacement such a full trapezoid would require", "assuming full
acceleration to `max_velocity` and full deceleration from `max_velocity` to
`goal.velocity_corrected`": the displacement of the accel+decel-only triangle at
`max_velocity`.  The two states are the direction-corrected ones. -/
def fullTrapezoidDisplacement (constraints : MotionProfileConstraints K)
    (initial goal : MotionProfilePosition K) : K :=
  rampDistance constraints.max_acceleration initial.velocity constraints.max_velocity
    + rampDistance constraints.max_acceleration constraints.max_velocity goal.velocity

/-- Modelled from the spec: the peak velocity of the missing constructor body.
Trapezoidal case (required displacement ≥ displacement of the accel+decel-only
triangle at `max_velocity`): `max_velocity`.  Triangular case (required
displacement < that displacement): "the true peak velocity `v_peak` such that the
accel distance (initial→v_peak) plus decel distance (v_peak→goal) exactly equals
the required displacement, given fixed `max_acceleration` for both phases",
"the solution of a single quadratic in `v_peak` (closed form)": from
`(v_peak² − v₀²)/(2a) + (v_peak² − v₁²)/(2a) = Δposition`, the non-negative root
`v_peak = sqrt (a·Δposition + (v₀² + v₁²)/2)`.  The square root function is a
parameter.  The two states are the direction-corrected ones. -/
def peakVelocity (sqrt : K → K) (constraints : MotionProfileConstraints K)
    (initial goal : MotionProfilePosition K) : K :=
  if goal.position - initial.position
      < fullTrapezoidDisplacement constraints initial goal then
    sqrt (constraints.max_acceleration * (goal.position - initial.position)
      + (initial.velocity * initial.velocity + goal.velocity * goal.velocity) / 2)
  else
    constraints.max_velocity

/-- Modelled from the spec: the length of the cruise segment of the missing
constructor body.  Trapezoidal case: "(remaining distance)/max_velocity", the
remaining distance being the required displacement less the displacement of the
two ramps.  Triangular case: "zero-length cruise". -/
def cruiseDuration (constraints : MotionProfileConstraints K)
    (initial goal : MotionProfilePosition K) : K :=
  if goal.position - initial.position
      < fullTrapezoidDisplacement constraints initial goal then
    0
  else
    (goal.position - initial.position
      - fullTrapezoidDisplacement constraints initial goal) / constraints.max_velocity

/-- Modelled from the spec: the marker `end_of_accel` of the missing constructor
body: "time to ramp from initial velocity to max_velocity at `max_acceleration`",
and in the triangular case "the same ramp-time formulas using `v_peak`". -/
def endOfAccel (sqrt : K → K) (constraints : MotionProfileConstraints K)
    (initial goal : MotionProfilePosition K) : K :=
  rampTime constraints.max_acceleration initial.velocity
    (peakVelocity sqrt constraints initial goal)

/-- Modelled from the spec: the marker `end_of_cruise` of the missing constructor
body: "`end_of_accel + (remaining distance)/max_velocity`", and
"`end_of_accel = end_of_cruise`" in the triangular case. -/
def endOfCruise (sqrt : K → K) (constraints : MotionProfileConstraints K)
    (initial goal : MotionProfilePosition K) : K :=
  endOfAccel sqrt constraints initial goal + cruiseDuration constraints initial goal

/-- Modelled from the spec: the marker `end_of_decel` of the missing constructor
body: "`end_of_cruise + (time to ramp from max_velocity to goal velocity)`", and
in the triangular case "the same ramp-time formulas using `v_peak`". -/
def endOfDecel (sqrt : K → K) (constraints : MotionProfileConstraints K)
    (initial goal : MotionProfilePosition K) : K :=
  endOfCruise sqrt constraints initial goal
    + rampTime constraints.max_acceleration
        (peakVelocity sqrt constraints initial goal) goal.velocity

/-- Modelled from the spec: the object the missing constructor body leaves behind,
given the direction and the direction-corrected boundary states: the "Timeline"
of "three derived time markers — `end_of_accel`, `end_of_cruise`,
`end_of_decel`", "computed once at construction", next to the direction, the
constraints and the corrected states. -/
def TrapezoidalMotionProfile.withTimeline (sqrt : K → K) (direction : Int)
    (constraints : MotionProfileConstraints K)
    (initial goal : MotionProfilePosition K) : TrapezoidalMotionProfile K :=
  { direction_ := direction
    constraints_ := constraints
    initial_ := initial
    goal_ := goal
    end_accel_ := endOfAccel sqrt constraints initial goal
    end_full_speed_ := endOfCruise sqrt constraints initial goal
    end_deccel_ := endOfDecel sqrt constraints initial goal }

/-- Modelled from the spec: the three-argument constructor
`TrapezoidalMotionProfile(constraints, goal, initial)`, declared in
`trapezoidal_motion_profile.h`, whose body (`trapezoidal_motion_profile.hpp`) is
not part of the sources at hand.  "Construct(constraints, goal, initial?) →
ProfileGenerator | fails with `InvalidConstraints` if either limit ≤ 0."  The
direction comes from the flip check; "all subsequent magnitude calculations use
direction-corrected (negated if flipped) versions of `initial` and `goal`". -/
def TrapezoidalMotionProfile.construct (sqrt : K → K)
    (constraints : MotionProfileConstraints K)
    (goal initial : MotionProfilePosition K) :
    Except ConstructionError (TrapezoidalMotionProfile K) :=
  if constraints.max_velocity ≤ 0 ∨ constraints.max_acceleration ≤ 0 then
    Except.error ConstructionError.InvalidConstraints
  else
    Except.ok
      (TrapezoidalMotionProfile.withTimeline sqrt
        (profileDirection initial goal constraints) constraints
        (muan.control.Direct (profileDirection initial goal constraints) initial)
        (muan.control.Direct (profileDirection initial goal constraints) goal))

/-- The two-argument constructor of `trapezoidal_motion_profile.h`, which
delegates to the three-argument one:
`: TrapezoidalMotionProfile{constraints, goal, MotionProfilePosition{0, 0}} {}`.
The three-argument constructor is a parameter. -/
def TrapezoidalMotionProfile.delegate {R : Type}
    (three_argument : MotionProfileConstraints K → MotionProfilePosition K →
      MotionProfilePosition K → R)
    (constraints : MotionProfileConstraints K) (goal : MotionProfilePosition K) : R :=
  three_argument constraints goal { position := 0, velocity := 0 }

/-- The two-argument constructor of `trapezoidal_motion_profile.h` with the
spec-modelled three-argument constructor as the one it delegates to. -/
def TrapezoidalMotionProfile.constructFromRest (sqrt : K → K)
    (constraints : MotionProfileConstraints K) (goal : MotionProfilePosition K) :
    Except ConstructionError (TrapezoidalMotionProfile K) :=
  TrapezoidalMotionProfile.delegate (TrapezoidalMotionProfile.construct sqrt)
    constraints goal

/-- Modelled from the spec: the clamping of the query time in the missing body
of `Calculate`: "`t` clamped to `[0, end_of_decel]` for kinematic computation". -/
def clampTime (end_of_decel t : K) : K :=
  if t < 0 then 0 else if end_of_decel < t then end_of_decel else t

/-- Modelled from the spec: the first phase of the missing body of `Calculate`:
"constant-acceleration kinematics from `initial_corrected` using
`max_acceleration` (or `−max_acceleration` ...  — sign derived from
`dv_to_peak`'s sign)".  `dv_to_peak` is the velocity change whose ramp time is
`end_of_accel`: `max_velocity − initial.velocity_corrected` in the trapezoidal
case and, as the triangular case takes "the same ramp-time formulas using
`v_peak`", `v_peak − initial.velocity_corrected` there. -/
def accelPhase (sqrt : K → K) (self : TrapezoidalMotionProfile K) (t : K) :
    MotionProfilePosition K :=
  let dv_to_peak :=
    peakVelocity sqrt self.constraints_ self.initial_ self.goal_ - self.initial_.velocity
  let acceleration :=
    if dv_to_peak < 0 then -self.constraints_.max_acceleration
    else self.constraints_.max_acceleration
  { position := self.initial_.position + self.initial_.velocity * t
      + acceleration * t * t / 2
    velocity := self.initial_.velocity + acceleration * t }

/-- Modelled from the spec: the second phase of the missing body of `Calculate`:
"constant velocity `max_velocity` (or `v_peak` in the degenerate case), position
extrapolated linearly from the accel-phase end position". -/
def cruisePhase (sqrt : K → K) (self : TrapezoidalMotionProfile K) (t : K) :
    MotionProfilePosition K :=
  let cruise_velocity := peakVelocity sqrt self.constraints_ self.initial_ self.goal_
  { position := (accelPhase sqrt self self.end_accel_).position
      + cruise_velocity * (t - self.end_accel_)
    velocity := cruise_velocity }

/-- Modelled from the spec: the third phase of the missing body of `Calculate`:
"constant-deceleration kinematics toward `goal_corrected.velocity`".  Like the
second phase it continues from the end of the phase before it: from the state at
`end_of_cruise` the velocity changes at the constant rate `max_acceleration`
toward the corrected goal velocity, a deceleration unless that velocity lies
above the cruise velocity. -/
def decelPhase (sqrt : K → K) (self : TrapezoidalMotionProfile K) (t : K) :
    MotionProfilePosition K :=
  let cruise_end := cruisePhase sqrt self self.end_full_speed_
  let dv_to_goal := self.goal_.velocity - cruise_end.velocity
  let acceleration :=
    if 0 < dv_to_goal then self.constraints_.max_acceleration
    else -self.constraints_.max_acceleration
  let time_in_phase := t - self.end_full_speed_
  { position := cruise_end.position + cruise_end.velocity * time_in_phase
      + acceleration * time_in_phase * time_in_phase / 2
    velocity := cruise_end.velocity + acceleration * time_in_phase }

/-- Modelled from the spec: the choice of the phase in the missing body of
`Calculate`, on a time already clamped: "`t ≤ end_of_accel`",
"`end_of_accel < t ≤ end_of_cruise`", "`end_of_cruise < t ≤ end_of_decel`".  The
result is in the direction-corrected convention. -/
def phaseState (sqrt : K → K) (self : TrapezoidalMotionProfile K) (t : K) :
    MotionProfilePosition K :=
  if t ≤ self.end_accel_ then
    accelPhase sqrt self t
  else if t ≤ self.end_full_speed_ then
    cruisePhase sqrt self t
  else
    decelPhase sqrt self t

/-- Modelled from the spec: the method `Calculate`, declared in
`trapezoidal_motion_profile.h`, whose body (`trapezoidal_motion_profile.hpp`) is
not part of the sources at hand.  The time is clamped to `[0, end_of_decel]`,
the state of the phase that time falls in is computed, and the "result is then
direction-corrected (negated) if the profile was flipped, to return to the
caller's original coordinate convention". -/
def TrapezoidalMotionProfile.Calculate (sqrt : K → K)
    (self : TrapezoidalMotionProfile K) (t : K) : MotionProfilePosition K :=
  self.Direct (phaseState sqrt self (clampTime self.end_deccel_ t))

end SpecModel

section SourceTheorems

variable {K : Type} [LinearOrderedField K]

/-- C1: for every profile and every time `t`, `finished(t)` is true exactly when
`t > total_time()`, `total_time()` is the stored marker `end_deccel_`, and
`finished(total_time())` is false. -/
theorem finished_iff_after_total_time (p : TrapezoidalMotionProfile K) (t : K) :
    (p.finished t = true ↔ t > p.total_time)
      ∧ p.total_time = p.end_deccel_
      ∧ p.finished p.total_time = false := by
  refine ⟨?_, rfl, ?_⟩
  · simp [TrapezoidalMotionProfile.finished, MotionProfile.finished]
  · simp [TrapezoidalMotionProfile.finished, MotionProfile.finished]

/-- C2: with `max_acceleration > 0`, `ShouldFlipAcceleration` returns true exactly
when `t * (dv/2 + initial.velocity) > goal.position - initial.position` for
`dv = goal.velocity - initial.velocity` and `t = |dv| / max_acceleration`; when
the ramp-only distance is at most the required displacement it returns false. -/
theorem ShouldFlipAcceleration_iff_ramp_exceeds
    (initial goal : MotionProfilePosition K) (constraints : MotionProfileConstraints K)
    (_h : 0 < constraints.max_acceleration) :
    (ShouldFlipAcceleration initial goal constraints = true ↔
        |goal.velocity - initial.velocity| / constraints.max_acceleration
            * ((goal.velocity - initial.velocity) / 2 + initial.velocity)
          > goal.position - initial.position)
      ∧ (|goal.velocity - initial.velocity| / constraints.max_acceleration
            * ((goal.velocity - initial.velocity) / 2 + initial.velocity)
          ≤ goal.position - initial.position →
        ShouldFlipAcceleration initial goal constraints = false) := by
  constructor
  · simp [ShouldFlipAcceleration, muan.abs]
  · intro hle
    simp only [ShouldFlipAcceleration, muan.abs, decide_eq_false_iff_not, not_lt, gt_iff_lt]
    exact hle

/-- A concrete instance of `ShouldFlipAcceleration_iff_ramp_exceeds`: a ramp from
velocity 3 to velocity 1 at acceleration 2 away from position 0. -/
theorem ShouldFlipAcceleration_iff_ramp_exceeds_witness :
    (0 : ℚ) < 2
      ∧ ((ShouldFlipAcceleration (K := ℚ) ⟨0, 3⟩ ⟨1, 1⟩ ⟨5, 2⟩ = true ↔
          |(1 : ℚ) - 3| / 2 * ((1 - 3) / 2 + 3) > 1 - 0)
        ∧ (|(1 : ℚ) - 3| / 2 * ((1 - 3) / 2 + 3) ≤ 1 - 0 →
          ShouldFlipAcceleration (K := ℚ) ⟨0, 3⟩ ⟨1, 1⟩ ⟨5, 2⟩ = false)) :=
  ⟨by norm_num,
    ShouldFlipAcceleration_iff_ramp_exceeds (K := ℚ) ⟨0, 3⟩ ⟨1, 1⟩ ⟨5, 2⟩ (by norm_num)⟩

/-- C3: for a profile whose `direction_` is 1 or -1, `Direct (Direct x) = x` for
every position/velocity pair `x`. -/
theorem Direct_Direct_eq_self (p : TrapezoidalMotionProfile K)
    (x : MotionProfilePosition K) (h : p.direction_ = 1 ∨ p.direction_ = -1) :
    p.Direct (p.Direct x) = x := by
  rcases h with h | h <;>
    simp [TrapezoidalMotionProfile.Direct, Direct, h]

/-- A concrete instance of `Direct_Direct_eq_self`: an inverted profile. -/
theorem Direct_Direct_eq_self_witness :
    ((-1 : Int) = 1 ∨ (-1 : Int) = -1)
      ∧ (TrapezoidalMotionProfile.Direct (K := ℚ) ⟨-1, ⟨1, 1⟩, ⟨0, 0⟩, ⟨-10, 0⟩, 1, 10, 11⟩
            (TrapezoidalMotionProfile.Direct ⟨-1, ⟨1, 1⟩, ⟨0, 0⟩, ⟨-10, 0⟩, 1, 10, 11⟩ ⟨3, -2⟩)
          = ⟨3, -2⟩) :=
  ⟨Or.inr rfl,
    Direct_Direct_eq_self (K := ℚ) ⟨-1, ⟨1, 1⟩, ⟨0, 0⟩, ⟨-10, 0⟩, 1, 10, 11⟩ ⟨3, -2⟩
      (Or.inr rfl)⟩

/-- C4: for all constraints `c` and goal `g`, the two-argument constructor gives
exactly what the three-argument constructor gives on `c`, `g` and the initial
state with position 0 and velocity 0, whatever the three-argument constructor
computes; in particular for the constructor modelled from the spec. -/
theorem two_argument_constructor_eq_three_argument {R : Type}
    (three_argument : MotionProfileConstraints K → MotionProfilePosition K →
      MotionProfilePosition K → R)
    (sqrt : K → K) (c : MotionProfileConstraints K) (g : MotionProfilePosition K) :
    TrapezoidalMotionProfile.delegate three_argument c g
        = three_argument c g { position := 0, velocity := 0 }
      ∧ TrapezoidalMotionProfile.constructFromRest sqrt c g
        = TrapezoidalMotionProfile.construct sqrt c g { position := 0, velocity := 0 } :=
  ⟨rfl, rfl⟩

/-- C5: assigning new constraints through the mutable `constraints()` accessor
changes the member `constraints_` and nothing else: `direction_`, `initial_`,
`goal_`, `end_accel_`, `end_full_speed_` and `end_deccel_` keep their values, and
so do `total_time()` and `finished(t)` for every `t`. -/
theorem assign_constraints_frame (p : TrapezoidalMotionProfile K)
    (c : MotionProfileConstraints K) :
    (p.assign_constraints c).constraints = c
      ∧ (p.assign_constraints c).direction_ = p.direction_
      ∧ (p.assign_constraints c).initial_ = p.initial_
      ∧ (p.assign_constraints c).goal_ = p.goal_
      ∧ (p.assign_constraints c).end_accel_ = p.end_accel_
      ∧ (p.assign_constraints c).end_full_speed_ = p.end_full_speed_
      ∧ (p.assign_constraints c).end_deccel_ = p.end_deccel_
      ∧ (p.assign_constraints c).total_time = p.total_time
      ∧ ∀ t : K, (p.assign_constraints c).finished t = p.finished t :=
  ⟨rfl, rfl, rfl, rfl, rfl, rfl, rfl, rfl, fun _ => rfl⟩

/-- C6, as stated, fails: with constraints {max_velocity 1, max_acceleration 1},
initial {position 0, velocity -1} and goal {position 1, velocity 0}, all the
conditions of the claim hold and `ShouldFlipAcceleration` returns false. -/
theorem ShouldFlipAcceleration_opposing_velocity_counterexample :
    (0 : ℚ) < (⟨1, 1⟩ : MotionProfileConstraints ℚ).max_acceleration
      ∧ (⟨0, -1⟩ : MotionProfilePosition ℚ).velocity = -1
      ∧ (⟨1, 0⟩ : MotionProfilePosition ℚ).velocity = 0
      ∧ (⟨1, 0⟩ : MotionProfilePosition ℚ).position
          > (⟨0, -1⟩ : MotionProfilePosition ℚ).position
      ∧ ShouldFlipAcceleration (K := ℚ) ⟨0, -1⟩ ⟨1, 0⟩ ⟨1, 1⟩ = false := by
  refine ⟨by norm_num, rfl, rfl, by norm_num, ?_⟩
  norm_num [ShouldFlipAcceleration, muan.abs]

/-- C6, amended: for every `max_acceleration > 0`, every initial state with
velocity -1 and every goal state with velocity 0 and
`goal.position > initial.position`, `ShouldFlipAcceleration` returns false: an
initial velocity opposing the goal direction does not trigger the flip. -/
theorem ShouldFlipAcceleration_opposing_velocity_false
    (initial goal : MotionProfilePosition K) (constraints : MotionProfileConstraints K)
    (ha : 0 < constraints.max_acceleration) (hi : initial.velocity = -1)
    (hg : goal.velocity = 0) (hpos : goal.position > initial.position) :
    ShouldFlipAcceleration initial goal constraints = false := by
  simp only [ShouldFlipAcceleration, muan.abs, decide_eq_false_iff_not, not_lt, gt_iff_lt,
    hi, hg]
  have h1 : |(0 : K) - -1| / constraints.max_acceleration * ((0 - -1) / 2 + -1)
      = -(1 / (2 * constraints.max_acceleration)) := by
    norm_num
  rw [h1]
  have h2 : 0 < 1 / (2 * constraints.max_acceleration) := by positivity
  linarith

/-- A concrete instance of `ShouldFlipAcceleration_opposing_velocity_false`:
from position 3 at velocity -1 to rest at position 5, with acceleration 2. -/
theorem ShouldFlipAcceleration_opposing_velocity_false_witness :
    (0 : ℚ) < 2 ∧ (-1 : ℚ) = -1 ∧ (0 : ℚ) = 0 ∧ (5 : ℚ) > 3
      ∧ ShouldFlipAcceleration (K := ℚ) ⟨3, -1⟩ ⟨5, 0⟩ ⟨4, 2⟩ = false :=
  ⟨by norm_num, rfl, rfl, by norm_num,
    ShouldFlipAcceleration_opposing_velocity_false (K := ℚ) ⟨3, -1⟩ ⟨5, 0⟩ ⟨4, 2⟩
      (by norm_num) rfl rfl (by norm_num)⟩

end SourceTheorems

section ModelLemmas

variable {K : Type} [LinearOrderedField K]

lemma rampTime_nonneg {a : K} (ha : 0 < a) (x y : K) : 0 ≤ rampTime a x y := by
  unfold rampTime muan.abs
  exact div_nonneg (abs_nonneg _) ha.le

lemma rampTime_eq_zero {a x y : K} (ha : 0 < a) (h : rampTime a x y = 0) : y = x := by
  unfold rampTime muan.abs at h
  rcases div_eq_zero_iff.mp h with h0 | h0
  · exact sub_eq_zero.mp (abs_eq_zero.mp h0)
  · exact absurd h0 ha.ne'

lemma cruiseDuration_nonneg (c : MotionProfileConstraints K)
    (i g : MotionProfilePosition K) (hv : 0 < c.max_velocity) :
    0 ≤ cruiseDuration c i g := by
  unfold cruiseDuration
  split_ifs with h
  · exact le_refl 0
  · exact div_nonneg (by linarith [not_lt.mp h]) hv.le

lemma endOfAccel_nonneg (sqrt : K → K) (c : MotionProfileConstraints K)
    (i g : MotionProfilePosition K) (ha : 0 < c.max_acceleration) :
    0 ≤ endOfAccel sqrt c i g :=
  rampTime_nonneg ha _ _

lemma endOfAccel_le_endOfCruise (sqrt : K → K) (c : MotionProfileConstraints K)
    (i g : MotionProfilePosition K) (hv : 0 < c.max_velocity) :
    endOfAccel sqrt c i g ≤ endOfCruise sqrt c i g := by
  unfold endOfCruise
  linarith [cruiseDuration_nonneg c i g hv]

lemma endOfCruise_le_endOfDecel (sqrt : K → K) (c : MotionProfileConstraints K)
    (i g : MotionProfilePosition K) (ha : 0 < c.max_acceleration) :
    endOfCruise sqrt c i g ≤ endOfDecel sqrt c i g := by
  unfold endOfDecel
  linarith [rampTime_nonneg ha (peakVelocity sqrt c i g) g.velocity]

lemma endOfDecel_nonneg (sqrt : K → K) (c : MotionProfileConstraints K)
    (i g : MotionProfilePosition K) (hv : 0 < c.max_velocity)
    (ha : 0 < c.max_acceleration) : 0 ≤ endOfDecel sqrt c i g :=
  le_trans (endOfAccel_nonneg sqrt c i g ha)
    (le_trans (endOfAccel_le_endOfCruise sqrt c i g hv)
      (endOfCruise_le_endOfDecel sqrt c i g ha))

/-- With positive limits the modelled construction succeeds, and returns the
timed profile of the direction-corrected states. -/
lemma construct_eq_ok (sqrt : K → K) (c : MotionProfileConstraints K)
    (g i : MotionProfilePosition K) (hv : 0 < c.max_velocity)
    (ha : 0 < c.max_acceleration) :
    TrapezoidalMotionProfile.construct sqrt c g i
      = Except.ok (TrapezoidalMotionProfile.withTimeline sqrt (profileDirection i g c) c
          (Direct (profileDirection i g c) i) (Direct (profileDirection i g c) g)) := by
  unfold TrapezoidalMotionProfile.construct
  rw [if_neg]
  rintro (h | h)
  · exact absurd hv (not_lt.mpr h)
  · exact absurd ha (not_lt.mpr h)

lemma profileDirection_eq (i g : MotionProfilePosition K)
    (c : MotionProfileConstraints K) :
    profileDirection i g c = 1 ∨ profileDirection i g c = -1 := by
  unfold profileDirection
  split_ifs
  · exact Or.inr rfl
  · exact Or.inl rfl

lemma Direct_involutive {d : Int} (hd : d = 1 ∨ d = -1) (x : MotionProfilePosition K) :
    Direct d (Direct d x) = x := by
  rcases hd with h | h <;> simp [Direct, h]

lemma clampTime_zero {e : K} (he : 0 ≤ e) : clampTime e 0 = 0 := by
  unfold clampTime
  rw [if_neg (lt_irrefl 0)]
  split_ifs with h
  · exact absurd h (not_lt.mpr he)
  · rfl

lemma clampTime_of_neg (e : K) {t : K} (ht : t < 0) : clampTime e t = 0 := by
  unfold clampTime
  rw [if_pos ht]

lemma clampTime_end {e : K} (he : 0 ≤ e) : clampTime e e = e := by
  unfold clampTime
  rw [if_neg (not_lt.mpr he), if_neg (lt_irrefl e)]

lemma clampTime_of_gt {e t : K} (he : 0 ≤ e) (ht : e < t) : clampTime e t = e := by
  unfold clampTime
  rw [if_neg (not_lt.mpr (le_trans he ht.le)), if_pos ht]

lemma accelPhase_zero (sqrt : K → K) (p : TrapezoidalMotionProfile K) :
    accelPhase sqrt p 0 = p.initial_ := by
  simp [accelPhase]

lemma ShouldFlipAcceleration_corrected (i g : MotionProfilePosition K)
    (c : MotionProfileConstraints K) :
    ShouldFlipAcceleration (Direct (profileDirection i g c) i)
      (Direct (profileDirection i g c) g) c = false := by
  unfold profileDirection
  by_cases h : ShouldFlipAcceleration i g c = true
  · rw [if_pos h]
    simp only [ShouldFlipAcceleration, muan.abs, decide_eq_true_eq, gt_iff_lt] at h
    simp only [ShouldFlipAcceleration, muan.abs, Direct, Int.cast_neg, Int.cast_one, mul_neg,
      mul_one, decide_eq_false_iff_not, not_lt, gt_iff_lt]
    have e : |(-g.velocity) - (-i.velocity)| = |g.velocity - i.velocity| := by
      rw [← abs_neg]
      congr 1
      ring
    rw [e]
    have e2 : |g.velocity - i.velocity| / c.max_acceleration
          * ((-g.velocity - -i.velocity) / 2 + -i.velocity)
        = -(|g.velocity - i.velocity| / c.max_acceleration
          * ((g.velocity - i.velocity) / 2 + i.velocity)) := by ring
    rw [e2]
    linarith
  · rw [if_neg h]
    have h2 : ShouldFlipAcceleration i g c = false := by simpa using h
    simpa [Direct] using h2

lemma rampDistance_self (a x : K) : rampDistance a x x = 0 := by
  simp [rampDistance, rampTime, muan.abs]

lemma radicand_bounds (i g : MotionProfilePosition K) (c : MotionProfileConstraints K)
    (ha : 0 < c.max_acceleration) (hcan : ShouldFlipAcceleration i g c = false) :
    (i.velocity ≤ g.velocity →
        g.velocity * g.velocity ≤
          c.max_acceleration * (g.position - i.position)
            + (i.velocity * i.velocity + g.velocity * g.velocity) / 2)
      ∧ (g.velocity < i.velocity →
        i.velocity * i.velocity ≤
          c.max_acceleration * (g.position - i.position)
            + (i.velocity * i.velocity + g.velocity * g.velocity) / 2) := by
  have hne : c.max_acceleration ≠ 0 := ha.ne'
  simp only [ShouldFlipAcceleration, muan.abs, decide_eq_false_iff_not, not_lt, gt_iff_lt]
    at hcan
  have h1 : |g.velocity - i.velocity| * ((g.velocity - i.velocity) / 2 + i.velocity)
      ≤ c.max_acceleration * (g.position - i.position) := by
    have := mul_le_mul_of_nonneg_left hcan ha.le
    calc |g.velocity - i.velocity| * ((g.velocity - i.velocity) / 2 + i.velocity)
        = c.max_acceleration * (|g.velocity - i.velocity| / c.max_acceleration
            * ((g.velocity - i.velocity) / 2 + i.velocity)) := by
          field_simp
          ring
      _ ≤ c.max_acceleration * (g.position - i.position) := this
  constructor
  · intro hs
    rw [abs_of_nonneg (sub_nonneg.mpr hs)] at h1
    nlinarith
  · intro hs
    rw [abs_of_neg (sub_neg.mpr hs)] at h1
    nlinarith

lemma radicand_nonneg (i g : MotionProfilePosition K) (c : MotionProfileConstraints K)
    (ha : 0 < c.max_acceleration) (hcan : ShouldFlipAcceleration i g c = false) :
    0 ≤ c.max_acceleration * (g.position - i.position)
          + (i.velocity * i.velocity + g.velocity * g.velocity) / 2 := by
  rcases le_or_lt i.velocity g.velocity with hs | hs
  · exact le_trans (mul_self_nonneg _) ((radicand_bounds i g c ha hcan).1 hs)
  · exact le_trans (mul_self_nonneg _) ((radicand_bounds i g c ha hcan).2 hs)

lemma peakVelocity_of_lt (sqrt : K → K) (c : MotionProfileConstraints K)
    (i g : MotionProfilePosition K)
    (h : g.position - i.position < fullTrapezoidDisplacement c i g) :
    peakVelocity sqrt c i g
      = sqrt (c.max_acceleration * (g.position - i.position)
          + (i.velocity * i.velocity + g.velocity * g.velocity) / 2) := by
  unfold peakVelocity
  rw [if_pos h]

lemma peakVelocity_of_not_lt (sqrt : K → K) (c : MotionProfileConstraints K)
    (i g : MotionProfilePosition K)
    (h : ¬ g.position - i.position < fullTrapezoidDisplacement c i g) :
    peakVelocity sqrt c i g = c.max_velocity := by
  unfold peakVelocity
  rw [if_neg h]

lemma cruiseDuration_of_not_lt (c : MotionProfileConstraints K)
    (i g : MotionProfilePosition K)
    (h : ¬ g.position - i.position < fullTrapezoidDisplacement c i g) :
    cruiseDuration c i g
      = (g.position - i.position - fullTrapezoidDisplacement c i g) / c.max_velocity := by
  unfold cruiseDuration
  rw [if_neg h]

lemma cruiseDuration_of_lt (c : MotionProfileConstraints K)
    (i g : MotionProfilePosition K)
    (h : g.position - i.position < fullTrapezoidDisplacement c i g) :
    cruiseDuration c i g = 0 := by
  unfold cruiseDuration
  rw [if_pos h]

/-- In the canonical frame the peak velocity of a triangular profile is at least
either boundary velocity. -/
lemma le_peakVelocity_of_lt (sqrt : K → K)
    (hsqrt : ∀ x : K, 0 ≤ x → 0 ≤ sqrt x ∧ sqrt x * sqrt x = x)
    (c : MotionProfileConstraints K) (i g : MotionProfilePosition K)
    (ha : 0 < c.max_acceleration)
    (hcan : ShouldFlipAcceleration i g c = false)
    (h : g.position - i.position < fullTrapezoidDisplacement c i g) :
    i.velocity ≤ peakVelocity sqrt c i g ∧ g.velocity ≤ peakVelocity sqrt c i g := by
  rw [peakVelocity_of_lt sqrt c i g h]
  obtain ⟨h0, hsq⟩ := hsqrt _ (radicand_nonneg i g c ha hcan)
  have hb := radicand_bounds i g c ha hcan
  rcases le_or_lt i.velocity g.velocity with hs | hs
  · have h1 := hb.1 hs
    rw [← hsq] at h1
    have h2 : g.velocity ≤ sqrt (c.max_acceleration * (g.position - i.position)
        + (i.velocity * i.velocity + g.velocity * g.velocity) / 2) := by
      by_contra hc
      push_neg at hc
      nlinarith
    exact ⟨le_trans hs h2, h2⟩
  · have h1 := hb.2 hs
    rw [← hsq] at h1
    have h2 : i.velocity ≤ sqrt (c.max_acceleration * (g.position - i.position)
        + (i.velocity * i.velocity + g.velocity * g.velocity) / 2) := by
      by_contra hc
      push_neg at hc
      nlinarith
    exact ⟨h2, le_trans hs.le h2⟩

lemma withTimeline_end_accel (sqrt : K → K) (d : Int) (c : MotionProfileConstraints K)
    (i g : MotionProfilePosition K) :
    (TrapezoidalMotionProfile.withTimeline sqrt d c i g).end_accel_
      = endOfAccel sqrt c i g := rfl

lemma withTimeline_end_full_speed (sqrt : K → K) (d : Int)
    (c : MotionProfileConstraints K) (i g : MotionProfilePosition K) :
    (TrapezoidalMotionProfile.withTimeline sqrt d c i g).end_full_speed_
      = endOfCruise sqrt c i g := rfl

lemma withTimeline_end_deccel (sqrt : K → K) (d : Int) (c : MotionProfileConstraints K)
    (i g : MotionProfilePosition K) :
    (TrapezoidalMotionProfile.withTimeline sqrt d c i g).end_deccel_
      = endOfDecel sqrt c i g := rfl

/-- A linear velocity ramp from `x` to `y`, run for its ramp time at a rate of
magnitude `a` directed from `x` to `y`, ends at velocity `y` having covered the
ramp distance. -/
lemma ramp_end (a x y acc : K) (ha : 0 < a)
    (hneg : y - x < 0 → acc = -a) (hpos : 0 < y - x → acc = a) :
    x + acc * rampTime a x y = y
      ∧ x * rampTime a x y + acc * rampTime a x y * rampTime a x y / 2
        = rampDistance a x y := by
  have hne : a ≠ 0 := ha.ne'
  unfold rampDistance rampTime muan.abs
  rcases lt_trichotomy (y - x) 0 with h | h | h
  · rw [hneg h, abs_of_neg h]
    constructor
    · field_simp
      ring
    · field_simp
      ring
  · rw [h]
    have hxy : y = x := sub_eq_zero.mp h
    simp [hxy]
  · rw [hpos h, abs_of_pos h]
    constructor
    · field_simp
    · field_simp
      ring

/-- The accel phase run for `end_of_accel` ends at the peak velocity, having
covered the distance of the ramp to it. -/
lemma accelPhase_endOfAccel (sqrt : K → K) (d : Int)
    (c : MotionProfileConstraints K) (i g : MotionProfilePosition K)
    (ha : 0 < c.max_acceleration) :
    accelPhase sqrt (TrapezoidalMotionProfile.withTimeline sqrt d c i g)
        (endOfAccel sqrt c i g)
      = ⟨i.position + rampDistance c.max_acceleration i.velocity (peakVelocity sqrt c i g),
          peakVelocity sqrt c i g⟩ := by
  obtain ⟨h1, h2⟩ := ramp_end c.max_acceleration i.velocity (peakVelocity sqrt c i g)
    (if peakVelocity sqrt c i g - i.velocity < 0 then -c.max_acceleration
      else c.max_acceleration) ha
    (fun h => if_pos h) (fun h => if_neg (not_lt.mpr h.le))
  unfold accelPhase endOfAccel
  simp only [TrapezoidalMotionProfile.withTimeline]
  ext
  · simp only
    linarith
  · exact h1

/-- The cruise phase run until `end_of_cruise` has added the cruise distance. -/
lemma cruisePhase_endOfCruise (sqrt : K → K) (d : Int)
    (c : MotionProfileConstraints K) (i g : MotionProfilePosition K)
    (ha : 0 < c.max_acceleration) :
    cruisePhase sqrt (TrapezoidalMotionProfile.withTimeline sqrt d c i g)
        (endOfCruise sqrt c i g)
      = ⟨i.position + rampDistance c.max_acceleration i.velocity (peakVelocity sqrt c i g)
            + peakVelocity sqrt c i g * cruiseDuration c i g,
          peakVelocity sqrt c i g⟩ := by
  unfold cruisePhase
  rw [withTimeline_end_accel, accelPhase_endOfAccel sqrt d c i g ha]
  simp only [TrapezoidalMotionProfile.withTimeline]
  have e : endOfCruise sqrt c i g - endOfAccel sqrt c i g = cruiseDuration c i g := by
    unfold endOfCruise
    ring
  rw [e]

/-- The decel phase run until `end_of_decel` ends at the corrected goal velocity,
having added the distance of the ramp to it. -/
lemma decelPhase_endOfDecel (sqrt : K → K) (d : Int)
    (c : MotionProfileConstraints K) (i g : MotionProfilePosition K)
    (ha : 0 < c.max_acceleration) :
    decelPhase sqrt (TrapezoidalMotionProfile.withTimeline sqrt d c i g)
        (endOfDecel sqrt c i g)
      = ⟨i.position + rampDistance c.max_acceleration i.velocity (peakVelocity sqrt c i g)
            + peakVelocity sqrt c i g * cruiseDuration c i g
            + rampDistance c.max_acceleration (peakVelocity sqrt c i g) g.velocity,
          g.velocity⟩ := by
  obtain ⟨h1, h2⟩ := ramp_end c.max_acceleration (peakVelocity sqrt c i g) g.velocity
    (if 0 < g.velocity - peakVelocity sqrt c i g then c.max_acceleration
      else -c.max_acceleration) ha
    (fun h => if_neg (not_lt.mpr h.le)) (fun h => if_pos h)
  unfold decelPhase
  rw [withTimeline_end_full_speed, cruisePhase_endOfCruise sqrt d c i g ha]
  simp only [TrapezoidalMotionProfile.withTimeline]
  have e : endOfDecel sqrt c i g - endOfCruise sqrt c i g
      = rampTime c.max_acceleration (peakVelocity sqrt c i g) g.velocity := by
    unfold endOfDecel
    ring
  rw [e]
  ext
  · simp only
    linarith
  · exact h1

/-- In the canonical frame, with an exact square root, the two ramps and the
cruise between them cover exactly the required displacement. -/
lemma ramps_and_cruise_cover_displacement (sqrt : K → K)
    (hsqrt : ∀ x : K, 0 ≤ x → 0 ≤ sqrt x ∧ sqrt x * sqrt x = x)
    (c : MotionProfileConstraints K) (i g : MotionProfilePosition K)
    (hv : 0 < c.max_velocity) (ha : 0 < c.max_acceleration)
    (hcan : ShouldFlipAcceleration i g c = false) :
    rampDistance c.max_acceleration i.velocity (peakVelocity sqrt c i g)
        + peakVelocity sqrt c i g * cruiseDuration c i g
        + rampDistance c.max_acceleration (peakVelocity sqrt c i g) g.velocity
      = g.position - i.position := by
  have hvne : c.max_velocity ≠ 0 := hv.ne'
  have hane : c.max_acceleration ≠ 0 := ha.ne'
  by_cases hdeg : g.position - i.position < fullTrapezoidDisplacement c i g
  · obtain ⟨hle0, hle1⟩ := le_peakVelocity_of_lt sqrt hsqrt c i g ha hcan hdeg
    obtain ⟨_, hsq⟩ := hsqrt _ (radicand_nonneg i g c ha hcan)
    rw [← peakVelocity_of_lt sqrt c i g hdeg] at hsq
    rw [cruiseDuration_of_lt c i g hdeg]
    simp only [rampDistance, rampTime, muan.abs]
    rw [abs_of_nonneg (sub_nonneg.mpr hle0), abs_of_nonpos (sub_nonpos.mpr hle1)]
    field_simp
    linarith
  · rw [peakVelocity_of_not_lt sqrt c i g hdeg, cruiseDuration_of_not_lt c i g hdeg]
    unfold fullTrapezoidDisplacement
    field_simp
    ring

/-- In the canonical frame, with an exact square root, the state computed for
the time `end_of_decel` is the corrected goal. -/
lemma phaseState_endOfDecel (sqrt : K → K)
    (hsqrt : ∀ x : K, 0 ≤ x → 0 ≤ sqrt x ∧ sqrt x * sqrt x = x) (d : Int)
    (c : MotionProfileConstraints K) (i g : MotionProfilePosition K)
    (hv : 0 < c.max_velocity) (ha : 0 < c.max_acceleration)
    (hcan : ShouldFlipAcceleration i g c = false) :
    phaseState sqrt (TrapezoidalMotionProfile.withTimeline sqrt d c i g)
      (endOfDecel sqrt c i g) = g := by
  have hrt2 := rampTime_nonneg ha (peakVelocity sqrt c i g) g.velocity
  have hcr := cruiseDuration_nonneg c i g hv
  have hsum : endOfDecel sqrt c i g = endOfAccel sqrt c i g + cruiseDuration c i g
      + rampTime c.max_acceleration (peakVelocity sqrt c i g) g.velocity := rfl
  have hsum2 : endOfCruise sqrt c i g = endOfAccel sqrt c i g + cruiseDuration c i g := rfl
  have hD := ramps_and_cruise_cover_displacement sqrt hsqrt c i g hv ha hcan
  unfold phaseState
  rw [withTimeline_end_accel, withTimeline_end_full_speed]
  by_cases h1 : endOfDecel sqrt c i g ≤ endOfAccel sqrt c i g
  · rw [if_pos h1]
    have hcr0 : cruiseDuration c i g = 0 := by linarith
    have hrt0 : rampTime c.max_acceleration (peakVelocity sqrt c i g) g.velocity = 0 := by
      linarith
    have hpk : g.velocity = peakVelocity sqrt c i g := rampTime_eq_zero ha hrt0
    have hed : endOfDecel sqrt c i g = endOfAccel sqrt c i g := by linarith
    rw [hed, accelPhase_endOfAccel sqrt d c i g ha]
    rw [hcr0, ← hpk, rampDistance_self] at hD
    ext
    · simp only
      rw [← hpk]
      linarith
    · exact hpk.symm
  · rw [if_neg h1]
    by_cases h2 : endOfDecel sqrt c i g ≤ endOfCruise sqrt c i g
    · rw [if_pos h2]
      have hrt0 : rampTime c.max_acceleration (peakVelocity sqrt c i g) g.velocity = 0 := by
        linarith
      have hpk : g.velocity = peakVelocity sqrt c i g := rampTime_eq_zero ha hrt0
      have hed : endOfDecel sqrt c i g = endOfCruise sqrt c i g := by linarith
      rw [hed, cruisePhase_endOfCruise sqrt d c i g ha]
      have hself : rampDistance c.max_acceleration (peakVelocity sqrt c i g) g.velocity
          = 0 := by
        rw [hpk]
        exact rampDistance_self _ _
      ext
      · simp only
        linarith
      · exact hpk.symm
    · rw [if_neg h2, decelPhase_endOfDecel sqrt d c i g ha]
      ext
      · simp only
        linarith
      · rfl

end ModelLemmas

section ModelTheorems

variable {K : Type} [LinearOrderedField K]

/-- C7: for positive `max_velocity` and `max_acceleration` and every initial and
goal state, the construction succeeds and `Calculate(0)` of the constructed
profile is the initial state, position and velocity. -/
theorem Calculate_zero_eq_initial (sqrt : K → K) (c : MotionProfileConstraints K)
    (g i : MotionProfilePosition K) (hv : 0 < c.max_velocity)
    (ha : 0 < c.max_acceleration) :
    ∃ p, TrapezoidalMotionProfile.construct sqrt c g i = Except.ok p
      ∧ p.Calculate sqrt 0 = i := by
  refine ⟨_, construct_eq_ok sqrt c g i hv ha, ?_⟩
  have he := endOfDecel_nonneg sqrt c (Direct (profileDirection i g c) i)
    (Direct (profileDirection i g c) g) hv ha
  have hacc := endOfAccel_nonneg sqrt c (Direct (profileDirection i g c) i)
    (Direct (profileDirection i g c) g) ha
  simp only [TrapezoidalMotionProfile.Calculate, TrapezoidalMotionProfile.withTimeline,
    TrapezoidalMotionProfile.Direct, clampTime_zero he, phaseState, if_pos hacc,
    accelPhase_zero]
  exact Direct_involutive (profileDirection_eq i g c) i

/-- A concrete instance of `Calculate_zero_eq_initial`: limits 1 and 1, from
position 0 at velocity -1 to rest at position 1. -/
theorem Calculate_zero_eq_initial_witness :
    (0 : ℚ) < 1 ∧ (0 : ℚ) < 1
      ∧ ∃ p, TrapezoidalMotionProfile.construct Rat.sqrt (⟨1, 1⟩ : MotionProfileConstraints ℚ)
            ⟨1, 0⟩ ⟨0, -1⟩ = Except.ok p
          ∧ p.Calculate Rat.sqrt 0 = ⟨0, -1⟩ :=
  ⟨by norm_num, by norm_num,
    Calculate_zero_eq_initial Rat.sqrt (⟨1, 1⟩ : MotionProfileConstraints ℚ) ⟨1, 0⟩ ⟨0, -1⟩
      (by norm_num) (by norm_num)⟩

/-- C8: with an exact square root, for positive `max_velocity` and
`max_acceleration` and every initial and goal state, the construction succeeds
and `Calculate(total_time())` of the constructed profile is the goal state,
position and velocity. -/
theorem Calculate_total_time_eq_goal (sqrt : K → K)
    (hsqrt : ∀ x : K, 0 ≤ x → 0 ≤ sqrt x ∧ sqrt x * sqrt x = x)
    (c : MotionProfileConstraints K) (g i : MotionProfilePosition K)
    (hv : 0 < c.max_velocity) (ha : 0 < c.max_acceleration) :
    ∃ p, TrapezoidalMotionProfile.construct sqrt c g i = Except.ok p
      ∧ p.Calculate sqrt p.total_time = g := by
  refine ⟨_, construct_eq_ok sqrt c g i hv ha, ?_⟩
  have he := endOfDecel_nonneg sqrt c (Direct (profileDirection i g c) i)
    (Direct (profileDirection i g c) g) hv ha
  unfold TrapezoidalMotionProfile.Calculate TrapezoidalMotionProfile.total_time
  rw [withTimeline_end_deccel, clampTime_end he,
    phaseState_endOfDecel sqrt hsqrt _ c _ _ hv ha
      (ShouldFlipAcceleration_corrected i g c)]
  exact Direct_involutive (profileDirection_eq i g c) g

/-- A concrete instance of `Calculate_total_time_eq_goal`, over the reals with
the real square root: limits 1 and 1, from position 0 at velocity 2 to
position 5/2 at velocity 3 (a triangular profile whose peak velocity, the
square root of 9, is the goal velocity). -/
theorem Calculate_total_time_eq_goal_witness :
    (0 : ℝ) < 1 ∧ (0 : ℝ) < 1
      ∧ ∃ p, TrapezoidalMotionProfile.construct Real.sqrt (⟨1, 1⟩ : MotionProfileConstraints ℝ)
            ⟨5 / 2, 3⟩ ⟨0, 2⟩ = Except.ok p
          ∧ p.Calculate Real.sqrt p.total_time = ⟨5 / 2, 3⟩ :=
  ⟨by norm_num, by norm_num,
    Calculate_total_time_eq_goal Real.sqrt
      (fun x hx => ⟨Real.sqrt_nonneg x, Real.mul_self_sqrt hx⟩)
      (⟨1, 1⟩ : MotionProfileConstraints ℝ) ⟨5 / 2, 3⟩ ⟨0, 2⟩
      (by norm_num) (by norm_num)⟩

/-- C9: for positive `max_velocity` and `max_acceleration` and every initial and
goal state, the construction succeeds and `Calculate` of the constructed profile
clamps its argument: `Calculate(t) = Calculate(total_time())` for every
`t > total_time()`, and `Calculate(t) = Calculate(0)` for every `t < 0`. -/
theorem Calculate_clamps_time (sqrt : K → K) (c : MotionProfileConstraints K)
    (g i : MotionProfilePosition K) (hv : 0 < c.max_velocity)
    (ha : 0 < c.max_acceleration) :
    ∃ p, TrapezoidalMotionProfile.construct sqrt c g i = Except.ok p
      ∧ (∀ t : K, t > p.total_time → p.Calculate sqrt t = p.Calculate sqrt p.total_time)
      ∧ (∀ t : K, t < 0 → p.Calculate sqrt t = p.Calculate sqrt 0) := by
  refine ⟨_, construct_eq_ok sqrt c g i hv ha, ?_, ?_⟩
  · intro t ht
    have he := endOfDecel_nonneg sqrt c (Direct (profileDirection i g c) i)
      (Direct (profileDirection i g c) g) hv ha
    simp only [TrapezoidalMotionProfile.total_time,
      TrapezoidalMotionProfile.withTimeline] at ht
    simp only [TrapezoidalMotionProfile.Calculate, TrapezoidalMotionProfile.total_time,
      TrapezoidalMotionProfile.withTimeline, clampTime_of_gt he ht, clampTime_end he]
  · intro t ht
    have he := endOfDecel_nonneg sqrt c (Direct (profileDirection i g c) i)
      (Direct (profileDirection i g c) g) hv ha
    simp only [TrapezoidalMotionProfile.Calculate, TrapezoidalMotionProfile.withTimeline,
      clampTime_of_neg _ ht, clampTime_zero he]

/-- A concrete instance of `Calculate_clamps_time`: limits 1 and 1, from rest at
position 0 to rest at position 10. -/
theorem Calculate_clamps_time_witness :
    (0 : ℚ) < 1 ∧ (0 : ℚ) < 1
      ∧ ∃ p, TrapezoidalMotionProfile.construct Rat.sqrt (⟨1, 1⟩ : MotionProfileConstraints ℚ)
            ⟨10, 0⟩ ⟨0, 0⟩ = Except.ok p
          ∧ (∀ t : ℚ, t > p.total_time →
              p.Calculate Rat.sqrt t = p.Calculate Rat.sqrt p.total_time)
          ∧ (∀ t : ℚ, t < 0 → p.Calculate Rat.sqrt t = p.Calculate Rat.sqrt 0) :=
  ⟨by norm_num, by norm_num,
    Calculate_clamps_time Rat.sqrt (⟨1, 1⟩ : MotionProfileConstraints ℚ) ⟨10, 0⟩ ⟨0, 0⟩
      (by norm_num) (by norm_num)⟩

/-- C10: for positive `max_velocity` and `max_acceleration` and every initial
and goal state, the construction succeeds and the three time markers of the
constructed profile satisfy `0 ≤ end_accel_ ≤ end_full_speed_ ≤ end_deccel_`. -/
theorem time_markers_ordered (sqrt : K → K) (c : MotionProfileConstraints K)
    (g i : MotionProfilePosition K) (hv : 0 < c.max_velocity)
    (ha : 0 < c.max_acceleration) :
    ∃ p, TrapezoidalMotionProfile.construct sqrt c g i = Except.ok p
      ∧ 0 ≤ p.end_accel_ ∧ p.end_accel_ ≤ p.end_full_speed_
      ∧ p.end_full_speed_ ≤ p.end_deccel_ :=
  ⟨_, construct_eq_ok sqrt c g i hv ha,
    endOfAccel_nonneg sqrt c _ _ ha,
    endOfAccel_le_endOfCruise sqrt c _ _ hv,
    endOfCruise_le_endOfDecel sqrt c _ _ ha⟩

/-- A concrete instance of `time_markers_ordered`: limits 2 and 1, from rest at
position 0 to rest at position 1 (a triangular profile). -/
theorem time_markers_ordered_witness :
    (0 : ℚ) < 2 ∧ (0 : ℚ) < 1
      ∧ ∃ p, TrapezoidalMotionProfile.construct Rat.sqrt (⟨2, 1⟩ : MotionProfileConstraints ℚ)
            ⟨1, 0⟩ ⟨0, 0⟩ = Except.ok p
          ∧ 0 ≤ p.end_accel_ ∧ p.end_accel_ ≤ p.end_full_speed_
          ∧ p.end_full_speed_ ≤ p.end_deccel_ :=
  ⟨by norm_num, by norm_num,
    time_markers_ordered Rat.sqrt (⟨2, 1⟩ : MotionProfileConstraints ℚ) ⟨1, 0⟩ ⟨0, 0⟩
      (by norm_num) (by norm_num)⟩

end ModelTheorems

section FlipTheorems

variable {K : Type} [LinearOrderedField K]

/-- C11: on the modelled constructor, construction fails with
`InvalidConstraints` exactly when `max_velocity ≤ 0` or `max_acceleration ≤ 0`;
from such limits no profile object is produced, and from positive limits one
is.  The same holds for the two-argument constructor, which delegates. -/
theorem construct_fails_iff_invalid_constraints (sqrt : K → K)
    (c : MotionProfileConstraints K) (g i : MotionProfilePosition K) :
    (TrapezoidalMotionProfile.construct sqrt c g i
          = Except.error ConstructionError.InvalidConstraints
        ↔ c.max_velocity ≤ 0 ∨ c.max_acceleration ≤ 0)
      ∧ (c.max_velocity ≤ 0 ∨ c.max_acceleration ≤ 0 →
          ∀ p, TrapezoidalMotionProfile.construct sqrt c g i ≠ Except.ok p)
      ∧ (¬ (c.max_velocity ≤ 0 ∨ c.max_acceleration ≤ 0) →
          ∃ p, TrapezoidalMotionProfile.construct sqrt c g i = Except.ok p)
      ∧ (TrapezoidalMotionProfile.constructFromRest sqrt c g
          = Except.error ConstructionError.InvalidConstraints
        ↔ c.max_velocity ≤ 0 ∨ c.max_acceleration ≤ 0) := by
  refine ⟨?_, ?_, ?_, ?_⟩
  · unfold TrapezoidalMotionProfile.construct
    split_ifs with h <;> simp [h]
  · intro h p
    unfold TrapezoidalMotionProfile.construct
    rw [if_pos h]
    simp
  · intro h
    unfold TrapezoidalMotionProfile.construct
    rw [if_neg h]
    exact ⟨_, rfl⟩
  · unfold TrapezoidalMotionProfile.constructFromRest TrapezoidalMotionProfile.delegate
      TrapezoidalMotionProfile.construct
    split_ifs with h <;> simp [h]

/-- A concrete instance of `construct_fails_iff_invalid_constraints`: with
`max_velocity` 0 the construction fails and yields no profile. -/
theorem construct_fails_iff_invalid_constraints_witness :
    ((0 : ℚ) ≤ 0 ∨ (1 : ℚ) ≤ 0)
      ∧ TrapezoidalMotionProfile.construct Rat.sqrt (⟨0, 1⟩ : MotionProfileConstraints ℚ)
          ⟨1, 0⟩ ⟨0, 0⟩ = Except.error ConstructionError.InvalidConstraints
      ∧ ∀ p, TrapezoidalMotionProfile.construct Rat.sqrt
          (⟨0, 1⟩ : MotionProfileConstraints ℚ) ⟨1, 0⟩ ⟨0, 0⟩ ≠ Except.ok p :=
  ⟨Or.inl (le_refl 0),
    (construct_fails_iff_invalid_constraints Rat.sqrt (⟨0, 1⟩ : MotionProfileConstraints ℚ)
      ⟨1, 0⟩ ⟨0, 0⟩).1.mpr (Or.inl (le_refl 0)),
    (construct_fails_iff_invalid_constraints Rat.sqrt (⟨0, 1⟩ : MotionProfileConstraints ℚ)
      ⟨1, 0⟩ ⟨0, 0⟩).2.1 (Or.inl (le_refl 0))⟩

/-- C12, as stated, fails: with constraints {max_velocity 1, max_acceleration 1},
initial {position 0, velocity 1} and goal {position 3, velocity 2} the ramp-only
distance, 3/2, is smaller than the desired distance, 3, and
`ShouldFlipAcceleration` returns false. -/
theorem ShouldFlipAcceleration_ramp_smaller_counterexample :
    (0 : ℚ) < (⟨1, 1⟩ : MotionProfileConstraints ℚ).max_acceleration
      ∧ |(2 : ℚ) - 1| / 1 * ((2 - 1) / 2 + 1) < 3 - 0
      ∧ ShouldFlipAcceleration (K := ℚ) ⟨0, 1⟩ ⟨3, 2⟩ ⟨1, 1⟩ = false := by
  refine ⟨by norm_num, by norm_num, ?_⟩
  norm_num [ShouldFlipAcceleration, muan.abs]

/-- C12, amended: with `max_acceleration > 0`, the profile is inverted
(`ShouldFlipAcceleration` returns true) if the desired distance
`goal.position - initial.position` is smaller than the distance travelled by a
linear velocity ramp from the initial to the final velocity; if the ramp distance
is the smaller one, it returns false. -/
theorem ShouldFlipAcceleration_of_distance_lt_ramp
    (initial goal : MotionProfilePosition K) (constraints : MotionProfileConstraints K)
    (_h : 0 < constraints.max_acceleration) :
    (goal.position - initial.position
          < |goal.velocity - initial.velocity| / constraints.max_acceleration
            * ((goal.velocity - initial.velocity) / 2 + initial.velocity) →
        ShouldFlipAcceleration initial goal constraints = true)
      ∧ (|goal.velocity - initial.velocity| / constraints.max_acceleration
            * ((goal.velocity - initial.velocity) / 2 + initial.velocity)
          < goal.position - initial.position →
        ShouldFlipAcceleration initial goal constraints = false) := by
  constructor
  · intro h
    simp only [ShouldFlipAcceleration, muan.abs, decide_eq_true_eq, gt_iff_lt]
    exact h
  · intro h
    simp only [ShouldFlipAcceleration, muan.abs, decide_eq_false_iff_not, not_lt, gt_iff_lt]
    exact h.le

/-- A concrete instance of `ShouldFlipAcceleration_of_distance_lt_ramp`: braking
from velocity 4 to rest at acceleration 2 takes a distance of 4, the goal is 1
away, and the profile is inverted. -/
theorem ShouldFlipAcceleration_of_distance_lt_ramp_witness :
    (0 : ℚ) < 2
      ∧ (2 : ℚ) - 1 < |(0 : ℚ) - 4| / 2 * ((0 - 4) / 2 + 4)
      ∧ ShouldFlipAcceleration (K := ℚ) ⟨1, 4⟩ ⟨2, 0⟩ ⟨4, 2⟩ = true :=
  ⟨by norm_num, by norm_num,
    (ShouldFlipAcceleration_of_distance_lt_ramp (K := ℚ) ⟨1, 4⟩ ⟨2, 0⟩ ⟨4, 2⟩
      (by norm_num)).1 (by norm_num)⟩

/-- C13: when `goal.velocity = initial.velocity` and `max_acceleration > 0`,
`ShouldFlipAcceleration` returns true exactly when
`goal.position < initial.position`; it returns false when the goal is the initial
state, and for initial {0, 0} with goal {1, 0} or {10, 0}. -/
theorem ShouldFlipAcceleration_equal_velocity
    (initial goal : MotionProfilePosition K) (constraints : MotionProfileConstraints K)
    (_ha : 0 < constraints.max_acceleration) (hv : goal.velocity = initial.velocity) :
    (ShouldFlipAcceleration initial goal constraints = true
        ↔ goal.position < initial.position)
      ∧ ShouldFlipAcceleration initial initial constraints = false
      ∧ ShouldFlipAcceleration ⟨0, 0⟩ ⟨1, 0⟩ constraints = false
      ∧ ShouldFlipAcceleration ⟨0, 0⟩ ⟨10, 0⟩ constraints = false := by
  refine ⟨?_, ?_, ?_, ?_⟩
  · simp [ShouldFlipAcceleration, muan.abs, hv]
  · simp [ShouldFlipAcceleration, muan.abs]
  · simp [ShouldFlipAcceleration, muan.abs]
  · simp [ShouldFlipAcceleration, muan.abs]

/-- A concrete instance of `ShouldFlipAcceleration_equal_velocity`: from
position 5 to position 3, both at velocity 2. -/
theorem ShouldFlipAcceleration_equal_velocity_witness :
    (0 : ℚ) < 1 ∧ (2 : ℚ) = 2
      ∧ (ShouldFlipAcceleration (K := ℚ) ⟨5, 2⟩ ⟨3, 2⟩ ⟨7, 1⟩ = true ↔ (3 : ℚ) < 5)
      ∧ ShouldFlipAcceleration (K := ℚ) ⟨5, 2⟩ ⟨5, 2⟩ ⟨7, 1⟩ = false
      ∧ ShouldFlipAcceleration (K := ℚ) ⟨0, 0⟩ ⟨1, 0⟩ ⟨7, 1⟩ = false
      ∧ ShouldFlipAcceleration (K := ℚ) ⟨0, 0⟩ ⟨10, 0⟩ ⟨7, 1⟩ = false :=
  ⟨by norm_num, rfl,
    ShouldFlipAcceleration_equal_velocity (K := ℚ) ⟨5, 2⟩ ⟨3, 2⟩ ⟨7, 1⟩ (by norm_num) rfl⟩

/-- C14: with `max_acceleration > 0`, if `ShouldFlipAcceleration` is true on
`initial` and `goal`, it is false on the negated states (position and velocity
of both multiplied by -1, which is `Direct` with direction -1); the original and
the negated problem are never both flipped. -/
theorem ShouldFlipAcceleration_negated_not_flipped
    (initial goal : MotionProfilePosition K) (constraints : MotionProfileConstraints K)
    (_ha : 0 < constraints.max_acceleration) :
    (ShouldFlipAcceleration initial goal constraints = true →
        ShouldFlipAcceleration (Direct (-1) initial) (Direct (-1) goal) constraints = false)
      ∧ ¬ (ShouldFlipAcceleration initial goal constraints = true
          ∧ ShouldFlipAcceleration (Direct (-1) initial) (Direct (-1) goal) constraints
            = true) := by
  have key : ShouldFlipAcceleration initial goal constraints = true →
      ShouldFlipAcceleration (Direct (-1) initial) (Direct (-1) goal) constraints
        = false := by
    intro h
    simp only [ShouldFlipAcceleration, muan.abs, decide_eq_true_eq, gt_iff_lt] at h
    simp only [ShouldFlipAcceleration, muan.abs, Direct, Int.cast_neg, Int.cast_one, mul_neg,
      mul_one, decide_eq_false_iff_not, not_lt, gt_iff_lt]
    have e : |(-goal.velocity) - (-initial.velocity)| = |goal.velocity - initial.velocity| := by
      rw [← abs_neg]
      congr 1
      ring
    rw [e]
    have e2 : |goal.velocity - initial.velocity| / constraints.max_acceleration
          * ((-goal.velocity - -initial.velocity) / 2 + -initial.velocity)
        = -(|goal.velocity - initial.velocity| / constraints.max_acceleration
          * ((goal.velocity - initial.velocity) / 2 + initial.velocity)) := by ring
    rw [e2]
    linarith
  refine ⟨key, ?_⟩
  rintro ⟨h1, h2⟩
  rw [key h1] at h2
  exact Bool.false_ne_true h2

/-- A concrete instance of `ShouldFlipAcceleration_negated_not_flipped`: the move
from rest at position 0 to rest at position -10 is flipped, and its negation,
the move to position 10, is not. -/
theorem ShouldFlipAcceleration_negated_not_flipped_witness :
    (0 : ℚ) < 1
      ∧ ShouldFlipAcceleration (K := ℚ) ⟨0, 0⟩ ⟨-10, 0⟩ ⟨1, 1⟩ = true
      ∧ ShouldFlipAcceleration (K := ℚ) (Direct (-1) ⟨0, 0⟩) (Direct (-1) ⟨-10, 0⟩) ⟨1, 1⟩
          = false :=
  have h : ShouldFlipAcceleration (K := ℚ) ⟨0, 0⟩ ⟨-10, 0⟩ ⟨1, 1⟩ = true := by
    norm_num [ShouldFlipAcceleration, muan.abs]
  ⟨by norm_num, h,
    (ShouldFlipAcceleration_negated_not_flipped (K := ℚ) ⟨0, 0⟩ ⟨-10, 0⟩ ⟨1, 1⟩
      (by norm_num)).1 h⟩

/-- C15: for every `x`, `Direct x` is `x.position * direction_` and
`x.velocity * direction_`; with `direction_ = -1` both position and velocity
change sign, and with `direction_ = 1` the result is `x`. -/
theorem Direct_eq_scaled (p : TrapezoidalMotionProfile K) (x : MotionProfilePosition K) :
    p.Direct x
        = { position := x.position * (p.direction_ : K)
            velocity := x.velocity * (p.direction_ : K) }
      ∧ (p.direction_ = -1 →
          p.Direct x = { position := -x.position, velocity := -x.velocity })
      ∧ (p.direction_ = 1 → p.Direct x = x) := by
  refine ⟨rfl, ?_, ?_⟩
  · intro h
    simp [TrapezoidalMotionProfile.Direct, Direct, h]
  · intro h
    simp [TrapezoidalMotionProfile.Direct, Direct, h]

/-- A concrete instance of `Direct_eq_scaled`: an inverted profile sends
{position 3, velocity -2} to {position -3, velocity 2}. -/
theorem Direct_eq_scaled_witness :
    TrapezoidalMotionProfile.Direct (K := ℚ) ⟨-1, ⟨1, 1⟩, ⟨0, 0⟩, ⟨10, 0⟩, 1, 10, 11⟩ ⟨3, -2⟩
      = { position := -3, velocity := - -2 } :=
  (Direct_eq_scaled (K := ℚ) ⟨-1, ⟨1, 1⟩, ⟨0, 0⟩, ⟨10, 0⟩, 1, 10, 11⟩ ⟨3, -2⟩).2.1 rfl

/-- C16: the flip decision is translation invariant: adding the same offset `d`
to `initial.position` and to `goal.position` does not change what
`ShouldFlipAcceleration` returns. -/
theorem ShouldFlipAcceleration_translation_invariant (d : K)
    (initial goal : MotionProfilePosition K) (constraints : MotionProfileConstraints K) :
    ShouldFlipAcceleration { initial with position := initial.position + d }
        { goal with position := goal.position + d } constraints
      = ShouldFlipAcceleration initial goal constraints := by
  simp only [ShouldFlipAcceleration]
  rw [show goal.position + d - (initial.position + d) = goal.position - initial.position
    by ring]

/-- C17: the flip decision does not depend on `max_velocity` nor on the receiver:
for all initial and goal states and every `max_acceleration`, any two receivers
and any two values of `max_velocity` give the same result. -/
theorem ShouldFlipAcceleration_independent_of_max_velocity_and_receiver
    (p q : TrapezoidalMotionProfile K) (initial goal : MotionProfilePosition K)
    (max_acceleration v v' : K) :
    p.ShouldFlipAcceleration initial goal
        { max_velocity := v, max_acceleration := max_acceleration }
      = q.ShouldFlipAcceleration initial goal
        { max_velocity := v', max_acceleration := max_acceleration } := by
  simp only [TrapezoidalMotionProfile.ShouldFlipAcceleration, ShouldFlipAcceleration]

end FlipTheorems

end control

end muan
